import Mathlib

set_option maxHeartbeats 1000000

namespace TradingAgents

/- ============================================================
   Embedding of src/core/tool_manager.py and the tool-call loop
   process_with_tools_return_result of src/core/agent_base.py.

   Python values flowing through the loop are modelled by ToolRet:
   Python None is ToolRet.nil, strings are ToolRet.str, structured
   emitter mappings are ToolRet.dict (field values abstracted to
   strings; the exact str() rendering of a dict is immaterial to the
   claims and is abstracted by ToolRet.py_str).
   ============================================================ -/

/-- Return value of a Python tool function (None / str / dict). -/
inductive ToolRet
  | nil
  | str (s : String)
  | dict (fields : List (String × String))
  deriving DecidableEq, Repr

/-- One structured tool-call request from the LLM response
(agent_base.py lines 232-241: id, function, raw arguments string). -/
structure ToolCall where
  id : String
  function : String
  arguments : String
  deriving DecidableEq, Repr

/-- An LLM chat-completion response: either plain text or a tool-calls
response (the isinstance dict / type == tool_calls discrimination). -/
inductive LLMResponse
  | text (content : String)
  | tool_calls (content : String) (calls : List ToolCall)
  deriving DecidableEq, Repr

/-- One entry of the messages list maintained by the loop. -/
inductive Msg
  | system (content : String)
  | user (content : String)
  | assistant (content : String) (calls : List ToolCall)
  | tool (tool_call_id : String) (content : String)
  deriving DecidableEq, Repr

/-- A registered tool: a name and a body.  A body that raises is
modelled by Except.error with the exception text. -/
structure PyTool where
  name : String
  run : List (String × String) → Except String ToolRet

/-- tool_map lookup (tool_manager.py line 24): the Python dict
comprehension keeps the LAST tool of a given name. -/
def tool_map_lookup (tools : List PyTool) (tool_name : String) : Option PyTool :=
  (tools.filter (fun t => t.name == tool_name)).getLast?

/-- Outcome of ToolManager.execute_tool as seen by its caller:
either an exception propagates (raised) or a value is returned. -/
inductive ExecOut
  | raised (msg : String)
  | returned (v : ToolRet)
  deriving Repr

/-- ToolManager.execute_tool (tool_manager.py lines 126-151):
unknown names raise ValueError("未知工具: ..."); a registered tool
whose body raises is caught and the string "工具执行失败: ..." is
returned as the result value. -/
def execute_tool (tools : List PyTool) (tool_name : String)
    (args : List (String × String)) : ExecOut :=
  match tool_map_lookup tools tool_name with
  | none => .raised ("未知工具: " ++ tool_name)
  | some t =>
    match t.run args with
    | .ok v => .returned v
    | .error e => .returned (.str ("工具执行失败: " ++ e))

/-- Python str() of a tool result, used for the tool message content
(result_str in agent_base.py line 258).  The exact dict rendering is
abstracted; only None/str are relied on by any claim. -/
def ToolRet.py_str : ToolRet → String
  | .nil => "None"
  | .str s => s
  | .dict fs => "dict:" ++ String.intercalate "," (fs.map (fun p => p.1 ++ "=" ++ p.2))

/-- The per-iteration tool-call execution (agent_base.py lines 244-289):
fold over the calls in order, appending one tool message per call and
tracking the Python variable target_tool_result (initially None,
assigned only on a non-raising execution of the target tool).  The
try/except around execute_tool turns a raised exception into the
result string "工具执行失败: ..." and skips the target assignment. -/
def run_tool_call_step (tools : List PyTool)
    (parse : String → Option (List (String × String)))
    (target_tool_name : String) (acc : List Msg × ToolRet)
    (call : ToolCall) : List Msg × ToolRet :=
  let args := (parse call.arguments).getD []
  match execute_tool tools call.function args with
  | .raised msg =>
    (acc.1 ++ [Msg.tool call.id ("工具执行失败: " ++ msg)], acc.2)
  | .returned v =>
    let tr := if call.function = target_tool_name then v else acc.2
    (acc.1 ++ [Msg.tool call.id v.py_str], tr)

/-- Folding the per-call step over the calls of one iteration, from
the empty tool-message list and the Python None target result. -/
def run_tool_calls (tools : List PyTool)
    (parse : String → Option (List (String × String)))
    (target_tool_name : String) (calls : List ToolCall) :
    List Msg × ToolRet :=
  calls.foldl (run_tool_call_step tools parse target_tool_name) ([], ToolRet.nil)

/-- The error message raised when the loop never observes the target
tool (agent_base.py line 311). -/
def not_called_error (target_tool_name : String) : String :=
  "未找到目标工具调用: " ++ target_tool_name ++ "，或工具执行失败"

/-- The iteration loop of process_with_tools_return_result
(agent_base.py lines 191-311), with the LLM as a deterministic oracle
of the current message list and the remaining iteration count as fuel.
A plain-text response appends nothing and continues with the SAME
message list (lines 301-307).  A tool-calls response appends one
assistant message plus one tool message per call, and the loop returns
target_tool_result when it is not None (lines 294-297); the Python
for-loop exhausting its range and the final-iteration break both land
on the raise at line 311, i.e. the fuel-0 case. -/
def tool_loop (llm : List Msg → LLMResponse) (tools : List PyTool)
    (parse : String → Option (List (String × String)))
    (target_tool_name : String) : Nat → List Msg → Except String ToolRet
  | 0, _ => .error (not_called_error target_tool_name)
  | fuel + 1, messages =>
    match llm messages with
    | .text _ => tool_loop llm tools parse target_tool_name fuel messages
    | .tool_calls content calls =>
      let step := run_tool_calls tools parse target_tool_name calls
      let messages2 := (messages ++ [Msg.assistant content calls]) ++ step.1
      if step.2 = ToolRet.nil then
        tool_loop llm tools parse target_tool_name fuel messages2
      else
        .ok step.2

/-- process_with_tools_return_result: seed the message list with the
optional system prompt and the user message, then run the loop for
max_iterations iterations. -/
def process_with_tools_return_result (llm : List Msg → LLMResponse)
    (tools : List PyTool) (parse : String → Option (List (String × String)))
    (system_prompt : Option String) (user_message : String)
    (target_tool_name : String) (max_iterations : Nat) :
    Except String ToolRet :=
  let seed :=
    (match system_prompt with
     | some sp => [Msg.system sp]
     | none => []) ++ [Msg.user user_message]
  tool_loop llm tools parse target_tool_name max_iterations seed

/-- Decidable trace predicate: along the run of the loop from the given
message list with the given fuel, no LLM response ever requests a tool
call whose name is the target tool ("the terminal tool is never
invoked"). -/
def never_calls_target (llm : List Msg → LLMResponse) (tools : List PyTool)
    (parse : String → Option (List (String × String)))
    (target_tool_name : String) : Nat → List Msg → Bool
  | 0, _ => true
  | fuel + 1, messages =>
    match llm messages with
    | .text _ => never_calls_target llm tools parse target_tool_name fuel messages
    | .tool_calls content calls =>
      calls.all (fun c => !(c.function == target_tool_name)) &&
      never_calls_target llm tools parse target_tool_name fuel
        ((messages ++ [Msg.assistant content calls]) ++
          (run_tool_calls tools parse target_tool_name calls).1)

/- ============================================================
   Embedding of src/agents/risk_management/risk_debate_coordinator.py
   (conduct_risk_debate, _get_opponent_arguments, _should_end_debate,
   _detect_repetition) and the DebateState dataclass of
   src/core/state_manager.py.

   The three analysts' debate_response calls and the risk manager's
   evaluate_risk_debate call are LLM-backed and are modelled as
   oracles (functions supplied as parameters).  The serialized initial
   analyses safe_json_dumps(x.get('analysis_result', {})) are taken as
   opaque strings.  datetime timestamps are elided.
   ============================================================ -/

/-- Speaker tag of a risk-debate history entry (the Python strings
conservative / aggressive / neutral). -/
inductive RiskSpeaker
  | conservative
  | aggressive
  | neutral
  deriving DecidableEq, Repr

/-- One entry of the locally built debate_history list
(risk_debate_coordinator.py lines 120-126 / 139-145 / 158-164);
the timestamp field is elided. -/
structure RiskEntry where
  round : Nat
  speaker : RiskSpeaker
  speaker_name : String
  content : String
  deriving DecidableEq, Repr

/-- The labeled text block for a history entry used by the opponent
routing: speaker_name（第round轮）：content. -/
def risk_entry_label (e : RiskEntry) : String :=
  e.speaker_name ++ "（第" ++ toString e.round ++ "轮）：" ++ e.content

/-- _get_opponent_arguments (risk_debate_coordinator.py lines 215-272):
exactly the Python control flow, including the inner conditionals of
the aggressive and neutral branches that are unreachable under the
outer condition current_round == 1 and not debate_history.
cons_init, agg_init, neu_init are the serialized initial analyses. -/
def get_opponent_arguments (current_speaker : RiskSpeaker)
    (debate_history : List RiskEntry) (current_round : Nat)
    (cons_init agg_init neu_init : String) : List String :=
  if current_round = 1 ∧ debate_history = [] then
    match current_speaker with
    | .conservative =>
      ["激进观点（初始分析）: " ++ agg_init,
       "中性观点（初始分析）: " ++ neu_init]
    | .aggressive =>
      let base :=
        if debate_history ≠ [] then
          let conservative_entries :=
            debate_history.filter (fun e => e.speaker == RiskSpeaker.conservative)
          match conservative_entries.getLast? with
          | some e =>
            ["保守观点（第" ++ toString e.round ++ "轮）：" ++ e.content]
          | none => ["保守观点（初始分析）: " ++ cons_init]
        else ["保守观点（初始分析）: " ++ cons_init]
      base ++ ["中性观点（初始分析）: " ++ neu_init]
    | .neutral =>
      if debate_history ≠ [] then
        debate_history.filterMap (fun e =>
          if e.speaker = RiskSpeaker.conservative ∨ e.speaker = RiskSpeaker.aggressive then
            some (risk_entry_label e)
          else none)
      else
        ["保守观点（初始分析）: " ++ cons_init,
         "激进观点（初始分析）: " ++ agg_init]
  else
    debate_history.filterMap (fun e =>
      if e.speaker ≠ current_speaker then some (risk_entry_label e) else none)

/-- Substring containment test (Python keyword in line): pat occurs in
s iff splitting s on pat yields at least two parts. -/
def contains_sub (s pat : String) : Bool :=
  (s.splitOn pat).length ≥ 2

/-- The fixed keyword set of _detect_repetition
(risk_debate_coordinator.py line 313). -/
def risk_keywords : List String := ["风险", "收益", "建议", "认为", "应该"]

/-- _detect_repetition (risk_debate_coordinator.py lines 306-323).
The source splits on the two-character literal backslash-n (the Python
string contains an escaped backslash), strips whitespace, keeps the
non-empty last 6 lines, counts lines containing each keyword, and
fires when some keyword count exceeds 3.  The Python dict of counts
keeps only keywords that occur; its max (or 0 when empty) equals the
max over the per-keyword counts with absent keywords counting 0. -/
def detect_repetition (text : String) : Bool :=
  let lines := text.splitOn "\\n"
  let recent_lines :=
    ((lines.drop (lines.length - 6)).map String.trim).filter (fun l => l ≠ "")
  let counts := risk_keywords.map (fun kw =>
    (recent_lines.filter (fun l => contains_sub l kw)).length)
  counts.foldl max 0 > 3

/-- _should_end_debate (risk_debate_coordinator.py lines 284-304). -/
def should_end_debate (max_rounds : Nat) (debate_history : List RiskEntry)
    (current_round : Nat) : Bool :=
  if current_round ≥ max_rounds then true
  else
    let total_content_length := ((debate_history.map (fun e => e.content.length)).sum)
    if total_content_length < 500 then false
    else if debate_history.length ≥ 6 then
      let recent_entries := debate_history.drop (debate_history.length - 6)
      let recent_content := String.intercalate " " (recent_entries.map (fun e => e.content))
      detect_repetition recent_content
    else false

/-- One round of the risk-debate loop (risk_debate_coordinator.py
lines 106-169): Conservative, then Aggressive, then Neutral, each fed
the opponent arguments computed from the history built so far.  The
replies are oracles from the opponent-argument list to the response
text (the topic and analysis context are fixed over one debate). -/
def risk_debate_round (cons_reply agg_reply neu_reply : List String → String)
    (cons_init agg_init neu_init : String) (round_num : Nat)
    (hist : List RiskEntry) : List RiskEntry :=
  let args_c := get_opponent_arguments .conservative hist round_num
    cons_init agg_init neu_init
  let hist1 := hist ++ [⟨round_num, .conservative, "保守分析师", cons_reply args_c⟩]
  let args_a := get_opponent_arguments .aggressive hist1 round_num
    cons_init agg_init neu_init
  let hist2 := hist1 ++ [⟨round_num, .aggressive, "激进分析师", agg_reply args_a⟩]
  let args_n := get_opponent_arguments .neutral hist2 round_num
    cons_init agg_init neu_init
  hist2 ++ [⟨round_num, .neutral, "中性分析师", neu_reply args_n⟩]

/-- The debate loop for round_num in range(1, max_rounds + 1) with the
end-of-round break; returns the history and the last executed
round_num.  remaining is the number of rounds still allowed; since
should_end_debate is true once current_round ≥ max_rounds, the break
always fires at the latest in round max_rounds. -/
def risk_debate_go (cons_reply agg_reply neu_reply : List String → String)
    (cons_init agg_init neu_init : String) (max_rounds : Nat) :
    Nat → Nat → List RiskEntry → List RiskEntry × Nat
  | 0, round_num, hist => (hist, round_num)
  | remaining + 1, round_num, hist =>
    let hist3 := risk_debate_round cons_reply agg_reply neu_reply
      cons_init agg_init neu_init round_num hist
    if should_end_debate max_rounds hist3 round_num then (hist3, round_num)
    else
      risk_debate_go cons_reply agg_reply neu_reply cons_init agg_init neu_init
        max_rounds remaining (round_num + 1) hist3

/-- AgentRole (state_manager.py lines 14-28). -/
inductive AgentRole
  | fundamental_analyst
  | sentiment_analyst
  | news_analyst
  | technical_analyst
  | bull_researcher
  | bear_researcher
  | debate_coordinator
  | trader
  | risky_analyst
  | neutral_analyst
  | safe_analyst
  | risk_manager
  | fund_manager
  deriving DecidableEq, Repr

/-- A Message appended to DebateState.messages
(state_manager.py lines 40-59); timestamp elided. -/
structure SessionMessage where
  id : String
  sender : AgentRole
  content : String
  deriving DecidableEq, Repr

/-- The DebateState dataclass (state_manager.py lines 163-187), plus
the two attributes is_concluded and conclusion that
conduct_risk_debate sets dynamically on the instance
(risk_debate_coordinator.py lines 185-186). -/
structure DebateState where
  participants : List AgentRole
  current_round : Nat
  max_rounds : Nat
  messages : List SessionMessage
  consensus_reached : Bool
  final_decision : Option String
  topic : Option String
  is_concluded : Bool
  conclusion : String
  deriving DecidableEq, Repr

/-- The fresh DebateState built at the top of conduct_risk_debate
(risk_debate_coordinator.py lines 72-81): dataclass defaults
messages = [], consensus_reached = False, final_decision = None;
the dynamic attributes are not yet set. -/
def initial_risk_debate_state (max_rounds : Nat) (topic : String) : DebateState :=
  { participants := [.safe_analyst, .risky_analyst, .neutral_analyst]
    current_round := 0
    max_rounds := max_rounds
    messages := []
    consensus_reached := false
    final_decision := none
    topic := some topic
    is_concluded := false
    conclusion := "" }

/-- The slice of TradingSession (state_manager.py lines 190-215)
relevant to the risk debate; the other artifact slots are untouched by
conduct_risk_debate and are elided. -/
structure SessionSlice where
  symbol : String
  risk_debate : Option DebateState
  deriving DecidableEq, Repr

/-- The success payload of conduct_risk_debate
(risk_debate_coordinator.py lines 193-205); the echoed analyses,
final_decision and timestamp are elided as opaque. -/
structure RiskDebateSuccess where
  topic : String
  rounds_completed : Nat
  debate_history : List RiskEntry
  conclusion : String
  deriving DecidableEq, Repr

/-- conduct_risk_debate (risk_debate_coordinator.py lines 43-213) on
its success path.  The independent analyses and the risk manager's
adjudication are oracles; rationale is the decision_rationale string
extracted from the risk manager's result (line 186).  With
max_rounds = 0 the Python for-loop body never runs, the read of
round_num at line 184 raises NameError, and the except branch returns
a failure: modelled by Except.error.  On success the DebateState —
whose messages list was never appended to — is stored into the
session's risk_debate slot (line 189). -/
def conduct_risk_debate (cons_reply agg_reply neu_reply : List String → String)
    (cons_init agg_init neu_init : String) (rationale : String)
    (recommendation : String) (max_rounds : Nat) (session : SessionSlice) :
    Except String (RiskDebateSuccess × SessionSlice) :=
  let topic := "交易决策风险评估: " ++ recommendation
  if max_rounds = 0 then
    .error "name 'round_num' is not defined"
  else
    let run := risk_debate_go cons_reply agg_reply neu_reply
      cons_init agg_init neu_init max_rounds max_rounds 1 []
    let ds0 := initial_risk_debate_state max_rounds topic
    let ds := { ds0 with current_round := run.2, is_concluded := true,
                         conclusion := rationale }
    .ok ({ topic := topic
           rounds_completed := run.2
           debate_history := run.1
           conclusion := rationale },
         { session with risk_debate := some ds })

/- ============================================================
   Embedding of src/communication/debate_coordinator.py:
   the debate loop of _do_conduct_research_debate (lines 196-249)
   and the fallback _default_judgment (lines 345-388).
   ============================================================ -/

/-- Speaker tag of a research-debate history entry (the Python strings
bull / bear). -/
inductive ResearchSpeaker
  | bull
  | bear
  deriving DecidableEq, Repr

/-- One entry of the research debate_history
(debate_coordinator.py lines 212-219 / 234-241); the timestamp, model
and provider metadata are elided. -/
structure ResearchEntry where
  round : Nat
  speaker : ResearchSpeaker
  message : String
  deriving DecidableEq, Repr

/-- One round of the research debate loop (debate_coordinator.py
lines 198-248): the Bull speaks with the last history message when it
is a Bear message, otherwise with the initial Bear thesis; then the
Bear speaks with the just-produced Bull response.  bull_reply and
bear_reply are oracles from the opponent message to the response (the
topic and context are fixed over one debate); round_num is the
0-based Python loop index. -/
def research_round (bull_reply bear_reply : String → String)
    (bear_thesis : String) (round_num : Nat) (hist : List ResearchEntry) :
    List ResearchEntry :=
  let opponent_msg :=
    match hist.getLast? with
    | some e => if e.speaker = ResearchSpeaker.bear then e.message else bear_thesis
    | none => bear_thesis
  let bull_response := bull_reply opponent_msg
  let hist1 := hist ++ [⟨round_num + 1, .bull, bull_response⟩]
  let bear_response := bear_reply bull_response
  hist1 ++ [⟨round_num + 1, .bear, bear_response⟩]

/-- The debate_history built by _do_conduct_research_debate: the loop
for round_num in range(max_rounds) with no early exit (the convergence
check at lines 247-248 is only a comment in the source). -/
def research_debate_history (bull_reply bear_reply : String → String)
    (bear_thesis : String) (max_rounds : Nat) : List ResearchEntry :=
  (List.range max_rounds).foldl
    (fun h r => research_round bull_reply bear_reply bear_thesis r h) []

/-- The Bull message of 0-indexed round k: in round 0 the Bull answers
the initial Bear thesis, afterwards the previous round's Bear
message. -/
def bull_msg (bull_reply bear_reply : String → String)
    (bear_thesis : String) : Nat → String
  | 0 => bull_reply bear_thesis
  | k + 1 => bull_reply (bear_reply (bull_msg bull_reply bear_reply bear_thesis k))

/-- The Bear message of 0-indexed round k: the Bear answers the
just-produced Bull message of the same round. -/
def bear_msg (bull_reply bear_reply : String → String)
    (bear_thesis : String) (k : Nat) : String :=
  bear_reply (bull_msg bull_reply bear_reply bear_thesis k)

/-- The fully unrolled expected history: for each 0-indexed round k,
one Bull entry then one Bear entry, labeled with round k+1. -/
def expected_research_history (bull_reply bear_reply : String → String)
    (bear_thesis : String) (max_rounds : Nat) : List ResearchEntry :=
  (List.range max_rounds).flatMap (fun k =>
    [⟨k + 1, .bull, bull_msg bull_reply bear_reply bear_thesis k⟩,
     ⟨k + 1, .bear, bear_msg bull_reply bear_reply bear_thesis k⟩])

/-- Decidable checker that the speakers of a research history
alternate Bull, Bear, Bull, Bear … starting from overall 0-indexed
position i. -/
def speakers_alternate (i : Nat) : List ResearchEntry → Bool
  | [] => true
  | e :: rest =>
    (e.speaker == (if i % 2 = 0 then ResearchSpeaker.bull else ResearchSpeaker.bear)) &&
      speakers_alternate (i + 1) rest

/-- A report entry as read by _default_judgment
(debate_coordinator.py lines 353-365): report.get('recommendation',
'HOLD') and report.get('confidence_score', 0.5).  Confidence is
modelled in ℚ.  A falsy report (None or an empty dict), skipped by
the continue at line 355, is modelled by Option.none on the entry
value. -/
structure JudgeReport where
  recommendation : Option String
  confidence_score : Option ℚ
  deriving DecidableEq, Repr

/-- Accumulator of the scoring loop of _default_judgment. -/
structure JudgeSignals where
  buy_signals : ℚ
  sell_signals : ℚ
  total_confidence : ℚ
  deriving DecidableEq, Repr

/-- One step of the scoring loop (debate_coordinator.py lines 353-365). -/
def judge_step (acc : JudgeSignals) (entry : String × Option JudgeReport) :
    JudgeSignals :=
  match entry.2 with
  | none => acc
  | some report =>
    let recommendation := report.recommendation.getD "HOLD"
    let confidence := report.confidence_score.getD (1 / 2)
    let acc1 :=
      if recommendation = "BUY" then
        { acc with buy_signals := acc.buy_signals + confidence }
      else if recommendation = "SELL" then
        { acc with sell_signals := acc.sell_signals + confidence }
      else acc
    { acc1 with total_confidence := acc1.total_confidence + confidence }

/-- The result fields of _default_judgment relevant to the claims; the
constant string fields (reasoning, supporting_factors, risk_factors,
investment_strategy, winning_arguments) are elided. -/
structure DefaultJudgment where
  decision : String
  confidence : ℚ
  winner : String
  deriving DecidableEq, Repr

/-- _default_judgment (debate_coordinator.py lines 345-388). -/
def default_judgment (analysis_reports : List (String × Option JudgeReport)) :
    DefaultJudgment :=
  let s := analysis_reports.foldl judge_step ⟨0, 0, 0⟩
  let avg_confidence :=
    if analysis_reports ≠ [] then
      s.total_confidence / (analysis_reports.length : ℚ)
    else 1 / 2
  if s.buy_signals > s.sell_signals then
    ⟨"BUY", min avg_confidence (4 / 5), "bull"⟩
  else if s.sell_signals > s.buy_signals then
    ⟨"SELL", min avg_confidence (4 / 5), "bear"⟩
  else
    ⟨"HOLD", min avg_confidence (4 / 5), "draw"⟩

/-- The BUY score named by the claim: the sum of confidence_score over
the (truthy) reports whose recommendation is BUY. -/
def buy_score (analysis_reports : List (String × Option JudgeReport)) : ℚ :=
  (((analysis_reports.filterMap Prod.snd).filter
    (fun r => r.recommendation.getD "HOLD" = "BUY")).map
    (fun r => r.confidence_score.getD (1 / 2))).sum

/-- The SELL score named by the claim: the sum of confidence_score
over the (truthy) reports whose recommendation is SELL. -/
def sell_score (analysis_reports : List (String × Option JudgeReport)) : ℚ :=
  (((analysis_reports.filterMap Prod.snd).filter
    (fun r => r.recommendation.getD "HOLD" = "SELL")).map
    (fun r => r.confidence_score.getD (1 / 2))).sum

/- ============================================================
   Embedding of the analyst fan-out stage of src/core/workflow.py:
   _run_analyst_team_parallel (lines 346-367),
   _execute_analyst_tasks_parallel / _process_single_analyst_result
   (lines 396-480) and _process_analyst_results (lines 482-509).
   ============================================================ -/

/-- The four analyst types of ANALYST_CONFIGS (workflow.py
lines 96-120).  The claim's analyst set ranges over these; the
_prepare_analyst_tasks filter that drops names outside
ANALYST_CONFIGS is the identity on them. -/
inductive AnalystType
  | fundamental
  | technical
  | sentiment
  | news
  deriving DecidableEq, Repr

/-- The analyst_type string used in the error messages. -/
def analyst_type_name : AnalystType → String
  | .fundamental => "fundamental"
  | .technical => "technical"
  | .sentiment => "sentiment"
  | .news => "news"

/-- Outcome of one analyst's execution as observed by the fan-out:
ok carries the published report (opaque); fail carries the error
message extracted when the result dict has success False
(workflow.py line 478); raised carries the exception text of the
future.result() except branch (line 423). -/
inductive AnalystOutcome
  | ok (report : String)
  | fail (err : String)
  | raised (err : String)
  deriving DecidableEq, Repr

/-- The error string appended for one failed analyst. -/
def analyst_error_msg (t : AnalystType) : AnalystOutcome → Option String
  | .ok _ => none
  | .fail e => some (analyst_type_name t ++ "失败: " ++ e)
  | .raised e => some (analyst_type_name t ++ "异常: " ++ e)

/-- Collecting one completed analyst result
(_process_single_analyst_result, workflow.py lines 457-480, and the
except branch of lines 422-425): a success stores the report, a
failure appends its formatted error message. -/
def analyst_fold_step (outcome : AnalystType → AnalystOutcome)
    (acc : List (AnalystType × String) × List String) (t : AnalystType) :
    List (AnalystType × String) × List String :=
  match outcome t with
  | .ok report => (acc.1 ++ [(t, report)], acc.2)
  | .fail e => (acc.1, acc.2 ++ [analyst_type_name t ++ "失败: " ++ e])
  | .raised e => (acc.1, acc.2 ++ [analyst_type_name t ++ "异常: " ++ e])

/-- _execute_analyst_tasks_parallel: collect the successful reports
and the error messages.  The as_completed completion order is
scheduler-dependent; it is modelled as the task order, on which none
of the claimed properties depend. -/
def execute_analyst_tasks (tasks : List AnalystType)
    (outcome : AnalystType → AnalystOutcome) :
    List (AnalystType × String) × List String :=
  tasks.foldl (analyst_fold_step outcome) ([], [])

/-- The report entry one analyst contributes when it succeeds. -/
def analyst_ok_report (t : AnalystType) : AnalystOutcome → Option (AnalystType × String)
  | .ok r => some (t, r)
  | .fail _ => none
  | .raised _ => none

/-- The stage result dictionary: the failure dicts carry an error and
no errors key, the success dict carries the errors list and no error
key; absent keys are Option.none. -/
structure StageResult where
  success : Bool
  error : Option String
  reports : List (AnalystType × String)
  errors : Option (List String)
  deriving DecidableEq, Repr

/-- _process_analyst_results (workflow.py lines 482-509). -/
def process_analyst_results (reports : List (AnalystType × String))
    (errors : List String) : StageResult :=
  if reports = [] then
    { success := false
      error := some ("所有分析师都失败了: " ++ String.intercalate "; " errors)
      reports := []
      errors := none }
  else
    { success := true, error := none, reports := reports, errors := some errors }

/-- _run_analyst_team_parallel (workflow.py lines 346-367): with no
tasks the stage fails with the error 没有选择任何分析师 (Chinese for
"no analysts selected", line 357). -/
def run_analyst_team_parallel (selected : List AnalystType)
    (outcome : AnalystType → AnalystOutcome) : StageResult :=
  if selected = [] then
    { success := false, error := some "没有选择任何分析师",
      reports := [], errors := none }
  else
    let r := execute_analyst_tasks selected outcome
    process_analyst_results r.1 r.2

/- ============================================================
   Embedding of _generate_tool_schemas of src/core/tool_manager.py
   (lines 27-97).  The source works on str(param.annotation) with
   startswith / in / split; annotation strings are modelled as
   List Char and Python's str.split(sep) on a single character is
   implemented as py_split.
   ============================================================ -/

/-- Python str.split on a single separator character:
"ab[cd]".split('[') = ["ab", "cd]"], "".split('[') = [""]. -/
def py_split (sep : Char) : List Char → List (List Char)
  | [] => [[]]
  | c :: rest =>
    let r := py_split sep rest
    if c = sep then [] :: r
    else
      match r with
      | [] => [[c]]
      | h :: t => (c :: h) :: t

/-- Python substring containment (pat in s) on character lists. -/
def contains_seg (pat : List Char) : List Char → Bool
  | [] => pat.isEmpty
  | c :: rest => pat.isPrefixOf (c :: rest) || contains_seg pat rest

/-- A declared parameter annotation as inspected by the registry:
inspect.Parameter.empty, the types int / float / bool matched by
equality, or anything else via its str() rendering. -/
inductive PyAnnot
  | empty
  | intA
  | floatA
  | boolA
  | other (s : List Char)
  deriving DecidableEq, Repr

/-- The generated property entry for one parameter:
its type string and the optional items type string. -/
structure ParamInfo where
  type : String
  items : Option String
  deriving DecidableEq, Repr

/-- The element-type mapping of lines 62-71: str / int / float / bool
map to their JSON scalar type, everything else falls back to string. -/
def element_type_info (element_type : List Char) : String :=
  if element_type = "str".data then "string"
  else if element_type = "int".data then "integer"
  else if element_type = "float".data then "number"
  else if element_type = "bool".data then "boolean"
  else "string"

/-- The per-parameter schema logic of _generate_tool_schemas
(tool_manager.py lines 43-73): default string; int / float / bool by
annotation equality; an annotation string starting with List or list
or containing "List[" becomes an array, with the items type extracted
as annotation_str.split('[')[1].split(']')[0] when both brackets are
present; every other annotation falls back to string. -/
def param_info_of : PyAnnot → ParamInfo
  | .empty => ⟨"string", none⟩
  | .intA => ⟨"integer", none⟩
  | .floatA => ⟨"number", none⟩
  | .boolA => ⟨"boolean", none⟩
  | .other s =>
    if "List".data.isPrefixOf s || "list".data.isPrefixOf s ||
        contains_seg "List[".data s then
      if s.contains '[' && s.contains ']' then
        let element_type :=
          (py_split ']' ((py_split '[' s).getD 1 [])).getD 0 []
        ⟨"array", some (element_type_info element_type)⟩
      else ⟨"array", none⟩
    else ⟨"string", none⟩

/-- One declared parameter of a tool's signature: its name, its
annotation, and whether it declares a default value. -/
structure PyParam where
  name : String
  annotation : PyAnnot
  has_default : Bool
  deriving DecidableEq, Repr

/-- The parameters block of one generated tool schema, built by the
loop of lines 43-79: for each parameter in declaration order, insert
its property entry (a Python signature cannot repeat a name, so dict
insertion order is declaration order), and append the name to the
required list when the parameter has no default. -/
def schema_fold_step (acc : List (String × ParamInfo) × List String)
    (p : PyParam) : List (String × ParamInfo) × List String :=
  let props := acc.1 ++ [(p.name, param_info_of p.annotation)]
  if !p.has_default then (props, acc.2 ++ [p.name]) else (props, acc.2)

/-- The parameters block assembled over the declared parameter list. -/
def generate_params_schema (params : List PyParam) :
    List (String × ParamInfo) × List String :=
  params.foldl schema_fold_step ([], [])

/- ============================================================
   Embedding of the Trader decision path:
   emit_trading_decision of src/tools/emitters/trading_emitters.py
   (lines 9-79) and the TradingDecision construction inside
   Trader._do_process of src/agents/trader/trader.py (lines 95-143).
   Prices, confidences and position sizes are modelled in ℚ.
   ============================================================ -/

/-- The flat named arguments the LLM passes to the terminal tool
emit_trading_decision (trading_emitters.py lines 9-31). -/
structure TraderEmitArgs where
  recommendation : String
  confidence_score : ℚ
  target_price : ℚ
  stop_loss : ℚ
  take_profit : ℚ
  position_size : ℚ
  time_horizon : String
  reasoning : String
  key_factors : List String
  risk_factors : List String
  acceptable_price_min : ℚ
  acceptable_price_max : ℚ
  immediate_action : String
  position_change_rationale : String
  weekly_monitoring_points : List String
  next_week_conditions : String
  current_market_assessment : String
  alternative_scenarios : String
  deriving DecidableEq, Repr

/-- The nested price_range block of the emitted mapping. -/
structure PriceRange where
  target_price : ℚ
  acceptable_min : ℚ
  acceptable_max : ℚ
  deriving DecidableEq, Repr

/-- The nested risk_management block of the emitted mapping. -/
structure RiskManagementBlock where
  stop_loss : ℚ
  take_profit : ℚ
  deriving DecidableEq, Repr

/-- The nested execution_plan block of the emitted mapping. -/
structure ExecutionPlanBlock where
  immediate_action : String
  position_change_rationale : String
  weekly_monitoring_points : List String
  next_week_conditions : String
  deriving DecidableEq, Repr

/-- The structured mapping returned by emit_trading_decision
(trading_emitters.py lines 57-79). -/
structure EmittedTradingDecision where
  recommendation : String
  confidence_score : ℚ
  position_size : ℚ
  time_horizon : String
  reasoning : String
  key_factors : List String
  risk_factors : List String
  price_range : PriceRange
  risk_management : RiskManagementBlock
  execution_plan : ExecutionPlanBlock
  market_timing : String
  alternatives : String
  deriving DecidableEq, Repr

/-- emit_trading_decision: a pure projection assembling the flat
arguments into the nested result mapping. -/
def emit_trading_decision (a : TraderEmitArgs) : EmittedTradingDecision :=
  { recommendation := a.recommendation
    confidence_score := a.confidence_score
    position_size := a.position_size
    time_horizon := a.time_horizon
    reasoning := a.reasoning
    key_factors := a.key_factors
    risk_factors := a.risk_factors
    price_range :=
      { target_price := a.target_price
        acceptable_min := a.acceptable_price_min
        acceptable_max := a.acceptable_price_max }
    risk_management := { stop_loss := a.stop_loss, take_profit := a.take_profit }
    execution_plan :=
      { immediate_action := a.immediate_action
        position_change_rationale := a.position_change_rationale
        weekly_monitoring_points := a.weekly_monitoring_points
        next_week_conditions := a.next_week_conditions }
    market_timing := a.current_market_assessment
    alternatives := a.alternative_scenarios }

/-- The TradingDecision dataclass (state_manager.py lines 62-80);
decision_timestamp and the analyst_consensus summary are elided. -/
structure TradingDecision where
  symbol : String
  recommendation : String
  confidence_score : ℚ
  target_price : ℚ
  stop_loss : ℚ
  take_profit : ℚ
  position_size : ℚ
  time_horizon : String
  reasoning : String
  risk_factors : List String
  execution_plan : ExecutionPlanBlock
  debate_influence : String
  acceptable_price_min : ℚ
  acceptable_price_max : ℚ
  deriving DecidableEq, Repr

/-- The TradingDecision construction of Trader._do_process
(trader.py lines 101-122): each field is the .get of the
corresponding key of the terminal tool's result (all keys are present
in the emitted mapping, so the .get defaults never fire); the
context's current_position_size is read only by the prompt builder
and plays no part here. -/
def build_trading_decision (symbol : String) (decision : EmittedTradingDecision)
    (debate_decision : String) : TradingDecision :=
  { symbol := symbol
    recommendation := decision.recommendation
    confidence_score := decision.confidence_score
    target_price := decision.price_range.target_price
    stop_loss := decision.risk_management.stop_loss
    take_profit := decision.risk_management.take_profit
    position_size := decision.position_size
    time_horizon := decision.time_horizon
    reasoning := decision.reasoning
    risk_factors := decision.risk_factors
    execution_plan := decision.execution_plan
    debate_influence := debate_decision
    acceptable_price_min := decision.price_range.acceptable_min
    acceptable_price_max := decision.price_range.acceptable_max }

/-- The Trader's decision pipeline on its success path: the terminal
tool loop yields emit_trading_decision applied to the arguments the
LLM supplied, and _do_process wraps that mapping into the
TradingDecision it publishes and returns. -/
def trader_decision (symbol : String) (args : TraderEmitArgs)
    (debate_decision : String) : TradingDecision :=
  build_trading_decision symbol (emit_trading_decision args) debate_decision

/- ============================================================
   Concrete fixtures used by closed witness and counterexample
   statements.
   ============================================================ -/

/-- A terminal emitter tool returning a structured mapping. -/
def fix_emit_tool : PyTool :=
  ⟨"emit_x", fun _ => .ok (.dict [("k", "v")])⟩

/-- A registered tool whose body raises. -/
def fix_raising_tool : PyTool :=
  ⟨"emit_y", fun _ => .error "boom"⟩

/-- An argument parser that always fails, so the loop falls back to
the empty mapping. -/
def fix_parse : String → Option (List (String × String)) := fun _ => none

/-- An LLM oracle that always requests the terminal tool. -/
def fix_llm_terminal : List Msg → LLMResponse :=
  fun _ => .tool_calls "" [⟨"1", "emit_x", "\x7b\x7d"⟩]

/-- An LLM oracle that always answers with plain text. -/
def fix_llm_text : List Msg → LLMResponse := fun _ => .text "thinking"

/-- An LLM oracle that requests one unknown tool and one raising tool,
never the terminal tool. -/
def fix_llm_nonterminal : List Msg → LLMResponse :=
  fun _ => .tool_calls "" [⟨"1", "nope", "\x7b\x7d"⟩, ⟨"2", "emit_y", "\x7b\x7d"⟩]

/-- The seed message list of the C5 scenario. -/
def fix_seed : List Msg := [Msg.user "hi"]

/-- An LLM oracle that answers the seed with plain text, and would
request the terminal tool on the very next call if (and only if) the
plain-text assistant reply had been appended to the transcript. -/
def fix_llm_text_then_tool (messages : List Msg) : LLMResponse :=
  if messages = fix_seed then .text "reply"
  else if messages = fix_seed ++ [Msg.assistant "reply" []] then
    .tool_calls "" [⟨"1", "emit_x", "\x7b\x7d"⟩]
  else .text "other"

/-- The single round-1 Conservative history entry of the C2 scenario. -/
def fix_cons_entry : RiskEntry := ⟨1, .conservative, "保守分析师", "c1"⟩

/-- Concrete Bull debate oracle. -/
def fix_bull_reply : String → String := fun s => "B(" ++ s ++ ")"

/-- Concrete Bear debate oracle. -/
def fix_bear_reply : String → String := fun s => "R(" ++ s ++ ")"

/-- Concrete risk-analyst debate oracle: concatenate the opponent
arguments. -/
def fix_risk_reply : List String → String := fun args => String.intercalate "|" args

/-- A session slice with no risk debate stored yet. -/
def fix_session : SessionSlice := ⟨"AAPL", none⟩

/-- A concrete analyst outcome assignment: fundamental succeeds, news
fails, the others raise. -/
def fix_outcome : AnalystType → AnalystOutcome
  | .fundamental => .ok "r"
  | .news => .fail "boom"
  | _ => .raised "x"

/-- Analyst reports whose BUY score dominates. -/
def fix_reports_buy : List (String × Option JudgeReport) :=
  [("fundamental", some ⟨some "BUY", some (7 / 10)⟩),
   ("technical", some ⟨some "SELL", some (3 / 10)⟩),
   ("news", none)]

/-- Analyst reports whose SELL score dominates. -/
def fix_reports_sell : List (String × Option JudgeReport) :=
  [("fundamental", some ⟨some "BUY", some (3 / 10)⟩),
   ("technical", some ⟨some "SELL", some (7 / 10)⟩)]

/-- Analyst reports with tied BUY and SELL scores. -/
def fix_reports_tie : List (String × Option JudgeReport) :=
  [("fundamental", some ⟨some "BUY", some (1 / 2)⟩),
   ("technical", some ⟨some "SELL", some (1 / 2)⟩)]

/-- Terminal-tool arguments of the C9 scenario: a HOLD decision whose
position_size 3/2 lies outside [0,1] and differs from the positive
current position 2/5 carried by the trading context. -/
def fix_trader_args : TraderEmitArgs :=
  { recommendation := "HOLD"
    confidence_score := 1 / 2
    target_price := 100
    stop_loss := 90
    take_profit := 120
    position_size := 3 / 2
    time_horizon := "中期"
    reasoning := "keep"
    key_factors := []
    risk_factors := []
    acceptable_price_min := 95
    acceptable_price_max := 105
    immediate_action := "hold"
    position_change_rationale := ""
    weekly_monitoring_points := []
    next_week_conditions := ""
    current_market_assessment := ""
    alternative_scenarios := "" }

/- ============================================================
   Theorems.  Helper lemmas first, then one theorem per claim with
   its witness or counterexample.
   ============================================================ -/

/-- Folding the call step over calls none of which names the target
tool leaves the target-result component untouched. -/
lemma foldl_step_snd_no_target (tools : List PyTool)
    (parse : String → Option (List (String × String))) (target : String) :
    ∀ (calls : List ToolCall) (acc : List Msg × ToolRet),
      (∀ c ∈ calls, c.function ≠ target) →
      (calls.foldl (run_tool_call_step tools parse target) acc).2 = acc.2 := by
  intro calls
  induction calls with
  | nil => intro acc _; rfl
  | cons c rest ih =>
    intro acc h
    have hc : c.function ≠ target := h c (by simp)
    have hrest : ∀ x ∈ rest, x.function ≠ target := fun x hx => h x (by simp [hx])
    simp only [List.foldl_cons]
    rw [ih _ hrest]
    unfold run_tool_call_step
    cases hex : execute_tool tools c.function ((parse c.arguments).getD []) with
    | raised msg => simp only [hex]
    | returned v => simp only [hex]; simp [hc]

/-- When no response along the run ever requests the target tool, the
loop falls through to the raise. -/
lemma tool_loop_never_target (llm : List Msg → LLMResponse) (tools : List PyTool)
    (parse : String → Option (List (String × String))) (target : String) :
    ∀ fuel messages,
      never_calls_target llm tools parse target fuel messages = true →
      tool_loop llm tools parse target fuel messages = .error (not_called_error target) := by
  intro fuel
  induction fuel with
  | zero => intro messages _; rfl
  | succ n ih =>
    intro messages h
    rw [never_calls_target] at h
    rw [tool_loop]
    cases hr : llm messages with
    | text c =>
      rw [hr] at h
      simp only
      exact ih messages h
    | tool_calls content calls =>
      rw [hr] at h
      simp only [Bool.and_eq_true, List.all_eq_true] at h
      obtain ⟨hall, hnext⟩ := h
      have hnone : ∀ c ∈ calls, c.function ≠ target := by
        intro c hc
        have := hall c hc
        simpa using this
      simp only
      rw [show run_tool_calls tools parse target calls
            = calls.foldl (run_tool_call_step tools parse target) ([], ToolRet.nil) from rfl]
      rw [foldl_step_snd_no_target tools parse target calls ([], ToolRet.nil) hnone]
      simp only [if_pos rfl]
      exact ih _ hnext

/-- Claim C1: the tool-call loop returns the terminal tool's
structured return value in the very iteration that executes the
terminal tool; a run in which the terminal tool is never invoked ends
in the raise 未找到目标工具调用 (TerminalToolNotCalled); and the two
max_iterations = 1 boundary instances. -/
theorem claim_C1_terminal_tool_loop (llm : List Msg → LLMResponse)
    (tools : List PyTool) (parse : String → Option (List (String × String)))
    (target : String) :
    (∀ fuel messages content calls d,
      llm messages = .tool_calls content calls →
      (run_tool_calls tools parse target calls).2 = .dict d →
      tool_loop llm tools parse target (fuel + 1) messages = .ok (.dict d))
    ∧ (∀ fuel messages,
      never_calls_target llm tools parse target fuel messages = true →
      tool_loop llm tools parse target fuel messages
        = .error (not_called_error target))
    ∧ (∀ messages content calls d,
      llm messages = .tool_calls content calls →
      (run_tool_calls tools parse target calls).2 = .dict d →
      tool_loop llm tools parse target 1 messages = .ok (.dict d))
    ∧ (∀ messages,
      never_calls_target llm tools parse target 1 messages = true →
      tool_loop llm tools parse target 1 messages
        = .error (not_called_error target)) := by
  have h1 : ∀ fuel messages content calls d,
      llm messages = .tool_calls content calls →
      (run_tool_calls tools parse target calls).2 = .dict d →
      tool_loop llm tools parse target (fuel + 1) messages = .ok (.dict d) := by
    intro fuel messages content calls d hllm hrun
    rw [tool_loop, hllm]
    simp only [hrun]
    simp
  refine ⟨h1, tool_loop_never_target llm tools parse target, ?_, ?_⟩
  · intro messages content calls d hllm hrun
    exact h1 0 messages content calls d hllm hrun
  · intro messages h
    exact tool_loop_never_target llm tools parse target 1 messages h

/-- Claim C1 witness: with a registry holding the emitter emit_x and
an LLM that requests it at once, one iteration returns its structured
mapping; with an LLM that only produces text, one iteration raises. -/
theorem claim_C1_terminal_tool_loop_witness :
    tool_loop fix_llm_terminal [fix_emit_tool] fix_parse "emit_x" 1 fix_seed
      = .ok (.dict [("k", "v")])
    ∧ tool_loop fix_llm_text [fix_emit_tool] fix_parse "emit_x" 1 fix_seed
      = .error (not_called_error "emit_x") := by
  constructor
  · exact (claim_C1_terminal_tool_loop fix_llm_terminal [fix_emit_tool]
      fix_parse "emit_x").2.2.1 fix_seed "" [⟨"1", "emit_x", "\x7b\x7d"⟩]
      [("k", "v")] rfl rfl
  · exact (claim_C1_terminal_tool_loop fix_llm_text [fix_emit_tool]
      fix_parse "emit_x").2.2.2 fix_seed rfl

/-- Claim C5 counterexample: the first response is the plain text
reply, yet the two-iteration run raises even though the LLM oracle
would have requested the terminal tool had the assistant message
reply been appended to the transcript — so the plain-text assistant
message is NOT appended and the next call does not see it. -/
theorem claim_C5_counterexample :
    tool_loop fix_llm_text_then_tool [fix_emit_tool] fix_parse "emit_x" 2 fix_seed
      = .error (not_called_error "emit_x")
    ∧ fix_llm_text_then_tool fix_seed = .text "reply"
    ∧ fix_llm_text_then_tool (fix_seed ++ [Msg.assistant "reply" []])
      = .tool_calls "" [⟨"1", "emit_x", "\x7b\x7d"⟩]
    ∧ (run_tool_calls [fix_emit_tool] fix_parse "emit_x"
        [⟨"1", "emit_x", "\x7b\x7d"⟩]).2 = .dict [("k", "v")] :=
  ⟨rfl, rfl, rfl, rfl⟩

/-- Claim C5 amended: when an LLM response is plain text, nothing is
appended to the message list — the next iteration runs with the
unchanged transcript, so subsequent LLM calls do not see the model's
prior plain-text reply. -/
theorem claim_C5_plain_text_not_appended (llm : List Msg → LLMResponse)
    (tools : List PyTool) (parse : String → Option (List (String × String)))
    (target : String) (fuel : Nat) (messages : List Msg) (c : String)
    (h : llm messages = .text c) :
    tool_loop llm tools parse target (fuel + 1) messages
      = tool_loop llm tools parse target fuel messages := by
  rw [tool_loop, h]

/-- Claim C5 amended witness. -/
theorem claim_C5_plain_text_not_appended_witness :
    tool_loop fix_llm_text_then_tool [fix_emit_tool] fix_parse "emit_x" 2 fix_seed
      = tool_loop fix_llm_text_then_tool [fix_emit_tool] fix_parse "emit_x" 1 fix_seed :=
  claim_C5_plain_text_not_appended fix_llm_text_then_tool [fix_emit_tool]
    fix_parse "emit_x" 1 fix_seed "reply" (by decide)

/-- Claim C6: execute_tool on an unregistered name raises the
未知工具 (unknown tool) error and nothing else; a registered tool
whose body raises is caught inside execute_tool, which returns the
string 工具执行失败 (tool execution failed) as the result; and an
iteration whose calls leave the target result unset continues the
loop with the appended transcript instead of aborting. -/
theorem claim_C6_execute_tool_errors (llm : List Msg → LLMResponse)
    (tools : List PyTool) (parse : String → Option (List (String × String)))
    (target : String) :
    (∀ name args, tool_map_lookup tools name = none →
      execute_tool tools name args = .raised ("未知工具: " ++ name))
    ∧ (∀ name args t e, tool_map_lookup tools name = some t →
      t.run args = .error e →
      execute_tool tools name args = .returned (.str ("工具执行失败: " ++ e)))
    ∧ (∀ fuel messages content calls,
      llm messages = .tool_calls content calls →
      (run_tool_calls tools parse target calls).2 = ToolRet.nil →
      tool_loop llm tools parse target (fuel + 1) messages
        = tool_loop llm tools parse target fuel
            ((messages ++ [Msg.assistant content calls])
              ++ (run_tool_calls tools parse target calls).1)) := by
  refine ⟨?_, ?_, ?_⟩
  · intro name args h
    simp only [execute_tool, h]
  · intro name args t e hlook hrun
    simp only [execute_tool, hlook, hrun]
  · intro fuel messages content calls hllm hrun
    rw [tool_loop, hllm]
    simp only [hrun]
    simp

/-- Claim C6 witness: a registry holding only the raising tool emit_y;
the unknown name nope raises 未知工具, the raising body comes back as
the 工具执行失败 string, and an iteration requesting both continues
the loop. -/
theorem claim_C6_execute_tool_errors_witness :
    execute_tool [fix_raising_tool] "nope" [] = .raised ("未知工具: " ++ "nope")
    ∧ execute_tool [fix_raising_tool] "emit_y" []
      = .returned (.str ("工具执行失败: " ++ "boom"))
    ∧ tool_loop fix_llm_nonterminal [fix_raising_tool] fix_parse "emit_x" 1 fix_seed
      = tool_loop fix_llm_nonterminal [fix_raising_tool] fix_parse "emit_x" 0
          ((fix_seed ++ [Msg.assistant ""
              [⟨"1", "nope", "\x7b\x7d"⟩, ⟨"2", "emit_y", "\x7b\x7d"⟩]])
            ++ (run_tool_calls [fix_raising_tool] fix_parse "emit_x"
                [⟨"1", "nope", "\x7b\x7d"⟩, ⟨"2", "emit_y", "\x7b\x7d"⟩]).1) := by
  refine ⟨?_, ?_, ?_⟩
  · exact (claim_C6_execute_tool_errors fix_llm_nonterminal [fix_raising_tool]
      fix_parse "emit_x").1 "nope" [] rfl
  · exact (claim_C6_execute_tool_errors fix_llm_nonterminal [fix_raising_tool]
      fix_parse "emit_x").2.1 "emit_y" [] fix_raising_tool "boom" rfl rfl
  · exact (claim_C6_execute_tool_errors fix_llm_nonterminal [fix_raising_tool]
      fix_parse "emit_x").2.2 0 fix_seed ""
      [⟨"1", "nope", "\x7b\x7d"⟩, ⟨"2", "emit_y", "\x7b\x7d"⟩] rfl rfl

/-- Claim C2 counterexample: for the round-1 Aggressive turn with the
history holding exactly one Conservative entry, the routing returns
ONLY the labeled Conservative message; the Neutral initial analysis is
not among the returned opponent arguments (the branch that would add
it is dead, because it is guarded by the history being empty). -/
theorem claim_C2_counterexample :
    get_opponent_arguments .aggressive [fix_cons_entry] 1 "CA" "AA" "NA"
      = ["保守分析师（第1轮）：c1"]
    ∧ ("中性观点（初始分析）: NA" ∉
        get_opponent_arguments .aggressive [fix_cons_entry] 1 "CA" "AA" "NA")
    ∧ (get_opponent_arguments .aggressive [fix_cons_entry] 1 "CA" "AA" "NA").length
        = 1 := by
  refine ⟨rfl, ?_, rfl⟩
  decide

/-- Claim C2 amended: opponent-argument routing is a pure function of
(current_speaker, debate_history_prefix, initial_analyses); the
round-1 Conservative turn (empty history) receives the Aggressive and
Neutral initial analyses; the round-1 Aggressive turn (one
Conservative entry in the history) receives only the labeled
Conservative message; and every turn with round ≠ 1 or a non-empty
history receives all messages of speakers other than the current
speaker, labeled, in temporal order. -/
theorem claim_C2_opponent_routing :
    (∀ cons_init agg_init neu_init,
      get_opponent_arguments .conservative [] 1 cons_init agg_init neu_init
        = ["激进观点（初始分析）: " ++ agg_init,
           "中性观点（初始分析）: " ++ neu_init])
    ∧ (∀ (e : RiskEntry) cons_init agg_init neu_init,
      e.speaker = .conservative →
      get_opponent_arguments .aggressive [e] 1 cons_init agg_init neu_init
        = [risk_entry_label e])
    ∧ (∀ current_speaker debate_history current_round
        cons_init agg_init neu_init,
      ¬(current_round = 1 ∧ debate_history = []) →
      get_opponent_arguments current_speaker debate_history current_round
          cons_init agg_init neu_init
        = debate_history.filterMap (fun e =>
            if e.speaker ≠ current_speaker then some (risk_entry_label e)
            else none))
    ∧ (∀ s₁ s₂ h₁ h₂ r₁ r₂ a₁ a₂ b₁ b₂ c₁ c₂,
      s₁ = s₂ → h₁ = h₂ → r₁ = r₂ → a₁ = a₂ → b₁ = b₂ → c₁ = c₂ →
      get_opponent_arguments s₁ h₁ r₁ a₁ b₁ c₁
        = get_opponent_arguments s₂ h₂ r₂ a₂ b₂ c₂) := by
  refine ⟨?_, ?_, ?_, ?_⟩
  · intro cons_init agg_init neu_init; rfl
  · intro e cons_init agg_init neu_init hsp
    have hne : ¬((1 : Nat) = 1 ∧ ([e] : List RiskEntry) = []) := by simp
    simp only [get_opponent_arguments, if_neg hne]
    simp [hsp, risk_entry_label]
  · intro current_speaker debate_history current_round cons_init agg_init neu_init hne
    simp only [get_opponent_arguments, if_neg hne]
  · intro s₁ s₂ h₁ h₂ r₁ r₂ a₁ a₂ b₁ b₂ c₁ c₂ e1 e2 e3 e4 e5 e6
    subst e1; subst e2; subst e3; subst e4; subst e5; subst e6; rfl

/-- Claim C2 amended witness: concrete instances of the two
hypothesis-bearing conjuncts. -/
theorem claim_C2_opponent_routing_witness :
    get_opponent_arguments .aggressive [fix_cons_entry] 1 "CA" "AA" "NA"
      = [risk_entry_label fix_cons_entry]
    ∧ get_opponent_arguments .neutral
        [fix_cons_entry, ⟨1, .aggressive, "激进分析师", "a1"⟩] 1 "CA" "AA" "NA"
      = [risk_entry_label fix_cons_entry,
         risk_entry_label ⟨1, .aggressive, "激进分析师", "a1"⟩] := by
  constructor
  · exact claim_C2_opponent_routing.2.1 fix_cons_entry "CA" "AA" "NA" rfl
  · have h := claim_C2_opponent_routing.2.2.1 .neutral
      [fix_cons_entry, ⟨1, .aggressive, "激进分析师", "a1"⟩] 1 "CA" "AA" "NA"
      (by simp)
    rw [h]
    decide

/-- The last element of a list extended by two elements. -/
lemma getLast?_append_pair {α : Type} (l : List α) (a b : α) :
    (l ++ [a, b]).getLast? = some b := by
  have h : l ++ [a, b] = (l ++ [a]) ++ [b] := by simp
  rw [h, List.getLast?_concat]

/-- Unrolling expected_research_history by one round. -/
lemma expected_research_history_succ (bull_reply bear_reply : String → String)
    (bear_thesis : String) (k : Nat) :
    expected_research_history bull_reply bear_reply bear_thesis (k + 1)
      = expected_research_history bull_reply bear_reply bear_thesis k ++
        [⟨k + 1, .bull, bull_msg bull_reply bear_reply bear_thesis k⟩,
         ⟨k + 1, .bear, bear_msg bull_reply bear_reply bear_thesis k⟩] := by
  unfold expected_research_history
  rw [List.range_succ, List.flatMap_append]
  rfl

/-- The debate loop produces exactly the unrolled expected history. -/
lemma research_debate_history_eq (bull_reply bear_reply : String → String)
    (bear_thesis : String) :
    ∀ max_rounds,
      research_debate_history bull_reply bear_reply bear_thesis max_rounds
        = expected_research_history bull_reply bear_reply bear_thesis max_rounds := by
  intro n
  induction n with
  | zero => rfl
  | succ k ih =>
    unfold research_debate_history at ih ⊢
    rw [List.range_succ, List.foldl_append, ih, List.foldl_cons, List.foldl_nil,
      expected_research_history_succ]
    unfold research_round
    cases k with
    | zero => simp [bull_msg, bear_msg, expected_research_history]
    | succ j =>
      rw [expected_research_history_succ, getLast?_append_pair]
      simp only [List.append_assoc]
      simp [bull_msg, bear_msg]

/-- Length of the expected history. -/
lemma expected_research_history_length (bull_reply bear_reply : String → String)
    (bear_thesis : String) :
    ∀ n, (expected_research_history bull_reply bear_reply bear_thesis n).length
      = 2 * n := by
  intro n
  induction n with
  | zero => rfl
  | succ k ih =>
    rw [expected_research_history_succ]
    simp only [List.length_append, ih, List.length_cons, List.length_nil]
    omega

/-- The alternation checker distributes over append. -/
lemma speakers_alternate_append (l₁ l₂ : List ResearchEntry) :
    ∀ i, speakers_alternate i (l₁ ++ l₂)
      = (speakers_alternate i l₁ && speakers_alternate (i + l₁.length) l₂) := by
  induction l₁ with
  | nil => intro i; simp [speakers_alternate]
  | cons e rest ih =>
    intro i
    simp only [List.cons_append, speakers_alternate, List.length_cons, List.append_eq]
    rw [ih (i + 1), Bool.and_assoc]
    have harith : i + 1 + rest.length = i + (rest.length + 1) := by omega
    rw [harith]

/-- The expected history alternates Bull, Bear from position 0. -/
lemma expected_research_history_alternates (bull_reply bear_reply : String → String)
    (bear_thesis : String) :
    ∀ n, speakers_alternate 0
      (expected_research_history bull_reply bear_reply bear_thesis n) = true := by
  intro n
  induction n with
  | zero => rfl
  | succ k ih =>
    rw [expected_research_history_succ, speakers_alternate_append, ih,
      expected_research_history_length]
    simp only [Bool.true_and, Nat.zero_add]
    simp only [speakers_alternate]
    have h1 : 2 * k % 2 = 0 := by omega
    have h2 : (2 * k + 1) % 2 = 1 := by omega
    simp [h1, h2]

/-- A passing alternation check pins each entry's speaker by the
parity of its overall position. -/
lemma speakers_alternate_get :
    ∀ (l : List ResearchEntry) (i : Nat), speakers_alternate i l = true →
      ∀ (j : Nat) (h : j < l.length),
        (l.get ⟨j, h⟩).speaker
          = if (i + j) % 2 = 0 then ResearchSpeaker.bull else ResearchSpeaker.bear := by
  intro l
  induction l with
  | nil => intro i _ j h; simp at h
  | cons e rest ih =>
    intro i halt j h
    simp only [speakers_alternate, Bool.and_eq_true, beq_iff_eq] at halt
    obtain ⟨hhead, htail⟩ := halt
    cases j with
    | zero => simpa using hhead
    | succ m =>
      have hm : m < rest.length := by
        simp only [List.length_cons] at h
        omega
      have hrec := ih (i + 1) htail m hm
      simp only [List.get_cons_succ]
      rw [hrec]
      have harith : i + 1 + m = i + (m + 1) := by omega
      rw [harith]

/-- Claim C3: a successful research debate runs exactly max_rounds
rounds and produces the fully unrolled history: 2 × max_rounds
messages, speaker Bull at even 0-indexed positions and Bear at odd
ones, each round labeled 1..max_rounds with the Bull answering the
previous Bear message (the initial Bear thesis in round 1) and the
Bear answering the just-produced Bull message (the wiring recorded by
bull_msg and bear_msg). -/
theorem claim_C3_research_debate_rounds (bull_reply bear_reply : String → String)
    (bear_thesis : String) (max_rounds : Nat) :
    research_debate_history bull_reply bear_reply bear_thesis max_rounds
      = expected_research_history bull_reply bear_reply bear_thesis max_rounds
    ∧ (research_debate_history bull_reply bear_reply bear_thesis max_rounds).length
      = 2 * max_rounds
    ∧ ∀ (j : Nat)
        (h : j < (research_debate_history bull_reply bear_reply bear_thesis
          max_rounds).length),
        ((research_debate_history bull_reply bear_reply bear_thesis max_rounds).get
          ⟨j, h⟩).speaker
          = if j % 2 = 0 then ResearchSpeaker.bull else ResearchSpeaker.bear := by
  have heq := research_debate_history_eq bull_reply bear_reply bear_thesis max_rounds
  refine ⟨heq, ?_, ?_⟩
  · rw [heq]; exact expected_research_history_length bull_reply bear_reply bear_thesis max_rounds
  · intro j h
    have halt : speakers_alternate 0
        (research_debate_history bull_reply bear_reply bear_thesis max_rounds) = true := by
      rw [heq]; exact expected_research_history_alternates bull_reply bear_reply bear_thesis max_rounds
    have := speakers_alternate_get _ 0 halt j h
    simpa using this

/-- Claim C3 witness: the two-round debate with concrete reply oracles
has four messages and a Bear speaker at position 1. -/
theorem claim_C3_research_debate_rounds_witness :
    (research_debate_history fix_bull_reply fix_bear_reply "T" 2).length = 2 * 2
    ∧ ((research_debate_history fix_bull_reply fix_bear_reply "T" 2).get
        ⟨1, by decide⟩).speaker = ResearchSpeaker.bear := by
  constructor
  · exact (claim_C3_research_debate_rounds fix_bull_reply fix_bear_reply "T" 2).2.1
  · have := (claim_C3_research_debate_rounds fix_bull_reply fix_bear_reply "T" 2).2.2
      1 (by decide)
    simpa using this

/-- filterMap is empty exactly when the function returns none on every
element. -/
lemma filterMap_nil_iff {α β : Type} (f : α → Option β) :
    ∀ l : List α, l.filterMap f = [] ↔ ∀ a ∈ l, f a = none := by
  intro l
  induction l with
  | nil => simp
  | cons x rest ih =>
    cases hx : f x <;> simp [List.filterMap_cons, hx, ih]

/-- Characterization of the fan-out fold: the reports are the
successful analysts' entries in order, the errors the failing
analysts' formatted messages in order. -/
lemma execute_analyst_tasks_spec (outcome : AnalystType → AnalystOutcome) :
    ∀ (tasks : List AnalystType) (acc : List (AnalystType × String) × List String),
      tasks.foldl (analyst_fold_step outcome) acc
        = (acc.1 ++ tasks.filterMap (fun t => analyst_ok_report t (outcome t)),
           acc.2 ++ tasks.filterMap (fun t => analyst_error_msg t (outcome t))) := by
  intro tasks
  induction tasks with
  | nil => intro acc; simp
  | cons t rest ih =>
    intro acc
    simp only [List.foldl_cons, ih]
    cases h : outcome t <;>
      simp [analyst_fold_step, h, analyst_ok_report, analyst_error_msg,
        List.filterMap_cons]

/-- An analyst contributes no report entry exactly when its outcome is
not a success. -/
lemma analyst_ok_report_none (t : AnalystType) (o : AnalystOutcome) :
    analyst_ok_report t o = none ↔ ∀ r, o ≠ .ok r := by
  cases o <;> simp [analyst_ok_report]

/-- Claim C4: the empty analyst set fails the stage with the error
没有选择任何分析师 (no analysts selected); a non-empty analyst set
succeeds exactly when at least one analyst's process succeeds; on
success the other analysts' failures are collected into the errors
list of the stage result; and when every analyst fails the stage
fails with the 所有分析师都失败了 error joining every analyst's
error message. -/
theorem claim_C4_analyst_fanout (outcome : AnalystType → AnalystOutcome) :
    run_analyst_team_parallel [] outcome
      = { success := false, error := some "没有选择任何分析师",
          reports := [], errors := none }
    ∧ (∀ selected : List AnalystType, selected ≠ [] →
        ((run_analyst_team_parallel selected outcome).success = true
          ↔ ∃ t ∈ selected, ∃ r, outcome t = .ok r))
    ∧ (∀ selected : List AnalystType, (∃ t ∈ selected, ∃ r, outcome t = .ok r) →
        run_analyst_team_parallel selected outcome
          = { success := true, error := none,
              reports := selected.filterMap (fun t => analyst_ok_report t (outcome t)),
              errors := some (selected.filterMap
                (fun t => analyst_error_msg t (outcome t))) })
    ∧ (∀ selected : List AnalystType, selected ≠ [] →
        (∀ t ∈ selected, ∀ r, outcome t ≠ .ok r) →
        run_analyst_team_parallel selected outcome
          = { success := false,
              error := some ("所有分析师都失败了: " ++ String.intercalate "; "
                (selected.filterMap (fun t => analyst_error_msg t (outcome t)))),
              reports := [], errors := none }) := by
  have hreports : ∀ selected : List AnalystType,
      (execute_analyst_tasks selected outcome).1
        = selected.filterMap (fun t => analyst_ok_report t (outcome t)) := by
    intro selected
    unfold execute_analyst_tasks
    rw [execute_analyst_tasks_spec outcome selected ([], [])]
    simp
  have herrors : ∀ selected : List AnalystType,
      (execute_analyst_tasks selected outcome).2
        = selected.filterMap (fun t => analyst_error_msg t (outcome t)) := by
    intro selected
    unfold execute_analyst_tasks
    rw [execute_analyst_tasks_spec outcome selected ([], [])]
    simp
  have hnil_iff : ∀ selected : List AnalystType,
      selected.filterMap (fun t => analyst_ok_report t (outcome t)) = []
        ↔ ∀ t ∈ selected, ∀ r, outcome t ≠ .ok r := by
    intro selected
    rw [filterMap_nil_iff]
    constructor
    · intro h t ht
      exact (analyst_ok_report_none t (outcome t)).mp (h t ht)
    · intro h t ht
      exact (analyst_ok_report_none t (outcome t)).mpr (h t ht)
  refine ⟨rfl, ?_, ?_, ?_⟩
  · intro selected hne
    simp only [run_analyst_team_parallel, process_analyst_results]
    rw [if_neg hne]
    rw [hreports, herrors]
    by_cases hempty : selected.filterMap (fun t => analyst_ok_report t (outcome t)) = []
    · rw [if_pos hempty]
      simp only [show (false = true) = False by simp]
      rw [hnil_iff] at hempty
      constructor
      · intro hc; exact absurd hc (by simp)
      · rintro ⟨t, ht, r, hr⟩
        exact absurd hr (hempty t ht r)
    · rw [if_neg hempty]
      simp only [show (true = true) = True by simp, true_iff]
      rw [hnil_iff] at hempty
      push_neg at hempty
      obtain ⟨t, ht, r, hr⟩ := hempty
      exact ⟨t, ht, r, hr⟩
  · intro selected hex
    have hne : selected ≠ [] := by
      obtain ⟨t, ht, _⟩ := hex
      intro hc; subst hc; simp at ht
    simp only [run_analyst_team_parallel, process_analyst_results]
    rw [if_neg hne]
    rw [hreports, herrors]
    have hempty : selected.filterMap (fun t => analyst_ok_report t (outcome t)) ≠ [] := by
      rw [Ne, hnil_iff]
      push_neg
      obtain ⟨t, ht, r, hr⟩ := hex
      exact ⟨t, ht, r, hr⟩
    rw [if_neg hempty]
  · intro selected hne hall
    simp only [run_analyst_team_parallel, process_analyst_results]
    rw [if_neg hne]
    rw [hreports, herrors]
    rw [if_pos ((hnil_iff selected).mpr hall)]

/-- Claim C4 witness: with fundamental succeeding and news failing,
the stage succeeds and carries the news error; with only news
selected the stage fails with the aggregated error. -/
theorem claim_C4_analyst_fanout_witness :
    run_analyst_team_parallel [AnalystType.fundamental, AnalystType.news] fix_outcome
      = { success := true, error := none,
          reports := [(AnalystType.fundamental, "r")],
          errors := some ["news失败: boom"] }
    ∧ run_analyst_team_parallel [AnalystType.news] fix_outcome
      = { success := false,
          error := some ("所有分析师都失败了: " ++ String.intercalate "; "
            ["news失败: boom"]),
          reports := [], errors := none } := by
  constructor
  · have h := (claim_C4_analyst_fanout fix_outcome).2.2.1
      [AnalystType.fundamental, AnalystType.news]
      ⟨AnalystType.fundamental, by decide, "r", rfl⟩
    rw [h]
    rfl
  · have hall : ∀ t ∈ [AnalystType.news], ∀ r, fix_outcome t ≠ .ok r := by
      intro t ht r hc
      simp only [List.mem_singleton] at ht
      subst ht
      simp [fix_outcome] at hc
    have h := (claim_C4_analyst_fanout fix_outcome).2.2.2
      [AnalystType.news] (by decide) hall
    rw [h]
    rfl

/-- The scoring fold accumulates exactly the BUY and SELL confidence
sums on top of the incoming accumulator. -/
lemma judge_foldl_spec :
    ∀ (reports : List (String × Option JudgeReport)) (acc : JudgeSignals),
      ((reports.foldl judge_step acc).buy_signals
          = acc.buy_signals + buy_score reports)
      ∧ ((reports.foldl judge_step acc).sell_signals
          = acc.sell_signals + sell_score reports) := by
  intro reports
  induction reports with
  | nil => intro acc; simp [buy_score, sell_score]
  | cons e rest ih =>
    intro acc
    cases he : e.2 with
    | none =>
      have hstep : judge_step acc e = acc := by
        simp [judge_step, he]
      simp only [List.foldl_cons, hstep]
      constructor
      · rw [(ih acc).1]
        simp [buy_score, List.filterMap_cons, he]
      · rw [(ih acc).2]
        simp [sell_score, List.filterMap_cons, he]
    | some report =>
      by_cases hb : report.recommendation.getD "HOLD" = "BUY"
      · have hstep : judge_step acc e =
            { buy_signals := acc.buy_signals + report.confidence_score.getD (1 / 2)
              sell_signals := acc.sell_signals
              total_confidence := acc.total_confidence
                + report.confidence_score.getD (1 / 2) } := by
          simp [judge_step, he, hb]
        simp only [List.foldl_cons, hstep]
        constructor
        · rw [(ih _).1]
          simp only [buy_score, List.filterMap_cons, he, List.filter_cons, hb]
          simp [add_assoc]
        · rw [(ih _).2]
          simp only [sell_score, List.filterMap_cons, he, List.filter_cons]
          have hnotsell : ¬report.recommendation.getD "HOLD" = "SELL" := by
            rw [hb]; intro hc; exact absurd hc (by decide)
          simp [hnotsell]
      · by_cases hs : report.recommendation.getD "HOLD" = "SELL"
        · have hstep : judge_step acc e =
              { buy_signals := acc.buy_signals
                sell_signals := acc.sell_signals + report.confidence_score.getD (1 / 2)
                total_confidence := acc.total_confidence
                  + report.confidence_score.getD (1 / 2) } := by
            simp [judge_step, he, hb, hs]
          simp only [List.foldl_cons, hstep]
          constructor
          · rw [(ih _).1]
            simp only [buy_score, List.filterMap_cons, he, List.filter_cons]
            simp [hb]
          · rw [(ih _).2]
            simp only [sell_score, List.filterMap_cons, he, List.filter_cons, hs]
            simp [add_assoc]
        · have hstep : judge_step acc e =
              { buy_signals := acc.buy_signals
                sell_signals := acc.sell_signals
                total_confidence := acc.total_confidence
                  + report.confidence_score.getD (1 / 2) } := by
            simp [judge_step, he, hb, hs]
          simp only [List.foldl_cons, hstep]
          constructor
          · rw [(ih _).1]
            simp only [buy_score, List.filterMap_cons, he, List.filter_cons]
            simp [hb]
          · rw [(ih _).2]
            simp only [sell_score, List.filterMap_cons, he, List.filter_cons]
            simp [hs]

/-- Claim C7: the fallback judgment scores the analyst reports by
summing confidence_score over BUY recommendations and over SELL
recommendations, decides BUY when the BUY score is strictly greater,
SELL when the SELL score is strictly greater, and HOLD when the two
scores are equal. -/
theorem claim_C7_default_judgment
    (analysis_reports : List (String × Option JudgeReport)) :
    (default_judgment analysis_reports).decision
      = (if buy_score analysis_reports > sell_score analysis_reports then "BUY"
         else if sell_score analysis_reports > buy_score analysis_reports then "SELL"
         else "HOLD")
    ∧ (buy_score analysis_reports > sell_score analysis_reports →
        (default_judgment analysis_reports).decision = "BUY")
    ∧ (sell_score analysis_reports > buy_score analysis_reports →
        (default_judgment analysis_reports).decision = "SELL")
    ∧ (buy_score analysis_reports = sell_score analysis_reports →
        (default_judgment analysis_reports).decision = "HOLD") := by
  have hb := (judge_foldl_spec analysis_reports ⟨0, 0, 0⟩).1
  have hs := (judge_foldl_spec analysis_reports ⟨0, 0, 0⟩).2
  simp only [zero_add] at hb hs
  have key : (default_judgment analysis_reports).decision
      = (if buy_score analysis_reports > sell_score analysis_reports then "BUY"
         else if sell_score analysis_reports > buy_score analysis_reports then "SELL"
         else "HOLD") := by
    simp only [default_judgment, hb, hs]
    split_ifs <;> rfl
  refine ⟨key, ?_, ?_, ?_⟩
  · intro h
    rw [key, if_pos h]
  · intro h
    rw [key, if_neg (by exact lt_asymm h), if_pos h]
  · intro h
    rw [key, if_neg (by rw [h]; exact lt_irrefl _),
      if_neg (by rw [h]; exact lt_irrefl _)]

/-- Claim C7 witness: the three score relations realized on concrete
report sets. -/
theorem claim_C7_default_judgment_witness :
    (default_judgment fix_reports_buy).decision = "BUY"
    ∧ (default_judgment fix_reports_sell).decision = "SELL"
    ∧ (default_judgment fix_reports_tie).decision = "HOLD" := by
  have h1 : ("BUY" : String) ≠ "SELL" := by decide
  have h2 : ("SELL" : String) ≠ "BUY" := by decide
  exact
    ⟨(claim_C7_default_judgment fix_reports_buy).2.1
      (by norm_num [buy_score, sell_score, fix_reports_buy,
        List.filterMap_cons, List.filter_cons, h1, h2]),
     (claim_C7_default_judgment fix_reports_sell).2.2.1
      (by norm_num [buy_score, sell_score, fix_reports_sell,
        List.filterMap_cons, List.filter_cons, h1, h2]),
     (claim_C7_default_judgment fix_reports_tie).2.2.2
      (by norm_num [buy_score, sell_score, fix_reports_tie,
        List.filterMap_cons, List.filter_cons, h1, h2])⟩

/-- Splitting a list free of the separator returns the single part. -/
lemma py_split_of_not_mem (sep : Char) :
    ∀ l : List Char, sep ∉ l → py_split sep l = [l] := by
  intro l
  induction l with
  | nil => intro _; rfl
  | cons c rest ih =>
    intro h
    have hc : ¬c = sep := by
      intro hc; exact h (by simp [hc])
    have hrest : sep ∉ rest := fun hr => h (by simp [hr])
    simp only [py_split, ih hrest]
    rw [if_neg hc]

/-- Splitting at the first separator occurrence peels off the prefix. -/
lemma py_split_append_sep (sep : Char) :
    ∀ (l₁ l₂ : List Char), sep ∉ l₁ →
      py_split sep (l₁ ++ sep :: l₂) = l₁ :: py_split sep l₂ := by
  intro l₁
  induction l₁ with
  | nil =>
    intro l₂ _
    simp [py_split]
  | cons c rest ih =>
    intro l₂ h
    have hc : ¬c = sep := by
      intro hc; exact h (by simp [hc])
    have hrest : sep ∉ rest := fun hr => h (by simp [hr])
    simp only [List.cons_append, py_split, List.append_eq]
    rw [if_neg hc, ih l₂ hrest]

/-- Containment distributes over append on character lists. -/
lemma contains_append (c : Char) :
    ∀ (l₁ l₂ : List Char),
      (l₁ ++ l₂).contains c = (l₁.contains c || l₂.contains c) := by
  intro l₁ l₂
  induction l₁ with
  | nil => rfl
  | cons x rest ih =>
    simp only [List.cons_append, List.contains_cons, ih, Bool.or_assoc]

/-- The schema fold collects the property entries in declaration order
and the names of the parameters without a default, in order. -/
lemma schema_foldl_spec :
    ∀ (params : List PyParam) (acc : List (String × ParamInfo) × List String),
      params.foldl schema_fold_step acc
        = (acc.1 ++ params.map (fun p => (p.name, param_info_of p.annotation)),
           acc.2 ++ (params.filter (fun p => !p.has_default)).map (fun p => p.name)) := by
  intro params
  induction params with
  | nil => intro acc; simp
  | cons p rest ih =>
    intro acc
    simp only [List.foldl_cons, ih]
    by_cases h : p.has_default
    · simp [schema_fold_step, h, List.filter_cons]
    · simp [schema_fold_step, h, List.filter_cons]

/-- Claim C8: a parameter is required exactly when it declares no
default (the required list is the in-order list of no-default
parameter names); int, float and bool annotations map to integer,
number and boolean; the absent annotation maps to string; a
list-of-T annotation string maps to an array whose items type is the
scalar mapping of T (string for non-scalar T); and every annotation
string not recognized as a list maps to string. -/
theorem claim_C8_schema_generation :
    (∀ params : List PyParam,
      (generate_params_schema params).1
        = params.map (fun p => (p.name, param_info_of p.annotation))
      ∧ (generate_params_schema params).2
        = (params.filter (fun p => !p.has_default)).map (fun p => p.name))
    ∧ param_info_of .intA = ⟨"integer", none⟩
    ∧ param_info_of .floatA = ⟨"number", none⟩
    ∧ param_info_of .boolA = ⟨"boolean", none⟩
    ∧ param_info_of .empty = ⟨"string", none⟩
    ∧ (∀ t : List Char, '[' ∉ t → ']' ∉ t →
        param_info_of (.other ("List[".data ++ (t ++ [']'])))
          = ⟨"array", some (element_type_info t)⟩)
    ∧ element_type_info "str".data = "string"
    ∧ element_type_info "int".data = "integer"
    ∧ element_type_info "float".data = "number"
    ∧ element_type_info "bool".data = "boolean"
    ∧ (∀ t : List Char, t ≠ "str".data → t ≠ "int".data → t ≠ "float".data →
        t ≠ "bool".data → element_type_info t = "string")
    ∧ (∀ s : List Char, "List".data.isPrefixOf s = false →
        "list".data.isPrefixOf s = false →
        contains_seg "List[".data s = false →
        param_info_of (.other s) = ⟨"string", none⟩) := by
  refine ⟨?_, rfl, rfl, rfl, rfl, ?_, rfl, rfl, rfl, rfl, ?_, ?_⟩
  · intro params
    unfold generate_params_schema
    rw [schema_foldl_spec params ([], [])]
    exact ⟨by simp, by simp⟩
  · intro t h1 h2
    have hpre : "List".data.isPrefixOf ("List[".data ++ (t ++ [']'])) = true := rfl
    have hopen : ("List[".data ++ (t ++ [']'])).contains '[' = true := rfl
    have hclose : ("List[".data ++ (t ++ [']'])).contains ']' = true := by
      rw [contains_append]
      have ht : (t ++ [']']).contains ']' = true := by
        rw [contains_append]
        simp
      rw [ht, Bool.or_true]
    have hsplit1 : py_split '[' ("List[".data ++ (t ++ [']']))
        = ["List".data, t ++ [']']] := by
      have e : "List[".data ++ (t ++ [']']) = "List".data ++ '[' :: (t ++ [']']) := rfl
      rw [e, py_split_append_sep '[' "List".data (t ++ [']']) (by decide)]
      have hnotin : '[' ∉ t ++ [']'] := by
        intro hmem
        rcases List.mem_append.mp hmem with hm | hm
        · exact h1 hm
        · simp at hm
      rw [py_split_of_not_mem '[' (t ++ [']']) hnotin]
    have hsplit2 : py_split ']' (t ++ [']']) = [t, []] := by
      have e : t ++ [']'] = t ++ ']' :: [] := rfl
      rw [e, py_split_append_sep ']' t [] h2]
      rfl
    simp only [param_info_of, hpre, Bool.true_or, hopen, hclose, Bool.and_self,
      if_true, hsplit1]
    simp only [List.getD, List.get?_cons_succ, List.get?_cons_zero,
      List.getElem?_cons_succ, List.getElem?_cons_zero, Option.getD_some, hsplit2]
  · intro t e1 e2 e3 e4
    simp [element_type_info, e1, e2, e3, e4]
  · intro s hp1 hp2 hc
    simp [param_info_of, hp1, hp2, hc]

/-- Claim C8 witness: concrete scalar and list annotations, a
non-scalar list element, and a non-list annotation, plus one concrete
parameter list exercising the required rule. -/
theorem claim_C8_schema_generation_witness :
    (generate_params_schema
        [⟨"symbol", .empty, false⟩, ⟨"days", .intA, true⟩]).2 = ["symbol"]
    ∧ (generate_params_schema
        [⟨"symbol", .empty, false⟩, ⟨"days", .intA, true⟩]).1
      = [("symbol", ⟨"string", none⟩), ("days", ⟨"integer", none⟩)]
    ∧ param_info_of (.other ("List[".data ++ ("int".data ++ [']'])))
      = ⟨"array", some "integer"⟩
    ∧ param_info_of (.other ("List[".data ++ ("Dict".data ++ [']'])))
      = ⟨"array", some "string"⟩
    ∧ element_type_info "Dict".data = "string"
    ∧ param_info_of (.other "typing.Dict".data) = ⟨"string", none⟩ := by
  refine ⟨?_, ?_, ?_, ?_, ?_, ?_⟩
  · rw [(claim_C8_schema_generation.1
      [⟨"symbol", .empty, false⟩, ⟨"days", .intA, true⟩]).2]
    rfl
  · rw [(claim_C8_schema_generation.1
      [⟨"symbol", .empty, false⟩, ⟨"days", .intA, true⟩]).1]
    rfl
  · rw [claim_C8_schema_generation.2.2.2.2.2.1 "int".data (by decide) (by decide)]
    rfl
  · rw [claim_C8_schema_generation.2.2.2.2.2.1 "Dict".data (by decide) (by decide)]
    rfl
  · exact claim_C8_schema_generation.2.2.2.2.2.2.2.2.2.2.1 "Dict".data
      (by decide) (by decide) (by decide) (by decide)
  · exact claim_C8_schema_generation.2.2.2.2.2.2.2.2.2.2.2 "typing.Dict".data
      (by decide) (by decide) (by decide)

/-- Claim C9 counterexample: a HOLD decision whose emitted
position_size is 3/2 flows through the Trader unchanged — with the
context carrying current_position_size 2/5 > 0, the published
TradingDecision has position_size 3/2, which neither lies in [0,1]
nor equals the current position within any tolerance below 11/10. -/
theorem claim_C9_counterexample :
    (trader_decision "AAPL" fix_trader_args "HOLD").recommendation = "HOLD"
    ∧ (trader_decision "AAPL" fix_trader_args "HOLD").position_size = 3 / 2
    ∧ ¬((trader_decision "AAPL" fix_trader_args "HOLD").position_size ≤ 1)
    ∧ (trader_decision "AAPL" fix_trader_args "HOLD").position_size ≠ 2 / 5 := by
  refine ⟨rfl, rfl, ?_, ?_⟩
  · norm_num [trader_decision, build_trading_decision, emit_trading_decision,
      fix_trader_args]
  · norm_num [trader_decision, build_trading_decision, emit_trading_decision,
      fix_trader_args]

/-- Claim C9 amended: the Trader publishes the terminal tool's
position_size, recommendation and confidence_score verbatim — the
code neither clamps position_size to [0,1] nor aligns a HOLD decision
with the context's current_position_size (the current position is
only interpolated into the prompt text). -/
theorem claim_C9_position_size_passthrough (symbol : String)
    (args : TraderEmitArgs) (debate_decision : String) :
    (trader_decision symbol args debate_decision).position_size = args.position_size
    ∧ (trader_decision symbol args debate_decision).recommendation
      = args.recommendation
    ∧ (trader_decision symbol args debate_decision).confidence_score
      = args.confidence_score :=
  ⟨rfl, rfl, rfl⟩

/-- Claim C10: on the success path of conduct_risk_debate, the
DebateState written into the session's risk_debate slot carries an
empty messages sequence whatever the number of debate turns; the
turns live only in the debate_history list returned in the result. -/
theorem claim_C10_risk_debate_empty_messages
    (cons_reply agg_reply neu_reply : List String → String)
    (cons_init agg_init neu_init rationale recommendation : String)
    (max_rounds : Nat) (session : SessionSlice) (h : ¬max_rounds = 0) :
    ∃ (result : RiskDebateSuccess) (ds : DebateState),
      conduct_risk_debate cons_reply agg_reply neu_reply cons_init agg_init
          neu_init rationale recommendation max_rounds session
        = .ok (result, { session with risk_debate := some ds })
      ∧ ds.messages = []
      ∧ result.debate_history
        = (risk_debate_go cons_reply agg_reply neu_reply cons_init agg_init
            neu_init max_rounds max_rounds 1 []).1 := by
  unfold conduct_risk_debate
  rw [if_neg h]
  exact ⟨_, _, rfl, rfl, rfl⟩

/-- Claim C10 witness: one concrete single-round risk debate stores a
DebateState with empty messages. -/
theorem claim_C10_risk_debate_empty_messages_witness :
    ∃ (result : RiskDebateSuccess) (ds : DebateState),
      conduct_risk_debate fix_risk_reply fix_risk_reply fix_risk_reply
          "CA" "AA" "NA" "rationale" "BUY" 1 fix_session
        = .ok (result, { fix_session with risk_debate := some ds })
      ∧ ds.messages = []
      ∧ result.debate_history
        = (risk_debate_go fix_risk_reply fix_risk_reply fix_risk_reply
            "CA" "AA" "NA" 1 1 1 []).1 :=
  claim_C10_risk_debate_empty_messages fix_risk_reply fix_risk_reply
    fix_risk_reply "CA" "AA" "NA" "rationale" "BUY" 1 fix_session (by decide)

end TradingAgents
